import Mathlib

/-!
Shallow embedding of `src/memorise_api_demo.py`, a demonstration front-end
that forwards text to three remote NLP services (classification, named-entity
extraction, machine translation) and displays the normalized responses.

External collaborators (the HTTP services, the language-detection library,
the filesystem, the UI framework) are passed in as explicit parameters; the
orchestration logic itself — the response normalizer `request`, the
translation language resolution in `translate`, the upload handler
`upload_file`, and the static table `LANG_2_FLORES` — is translated from the
source line by line.
-/

namespace MemoriseDemo

/-- JSON values as produced by `json.loads`. Numeric literals are kept as
their source text, since the program never computes with numbers — it only
stores and forwards them. -/
inductive JVal where
  | str : String → JVal
  | num : String → JVal
  | boolean : Bool → JVal
  | null : JVal
  | arr : List JVal → JVal
  | obj : List (String × JVal) → JVal

/-- A Python dict parsed from JSON: an association list with string keys.
Python dicts have unique keys, so first-match lookup agrees with dict
indexing. -/
abbrev Dict := List (String × JVal)

/-- The static target-language table of the source (lines 10-20), in source
order: human-readable name to FLORES code. -/
def LANG_2_FLORES : List (String × String) :=
  [ ("Czech", "ces_Latn"),
    ("Danish", "dan_Latn"),
    ("Dutch", "nld_Latn"),
    ("English", "eng_Latn"),
    ("German", "deu_Latn"),
    ("Hebrew", "heb_Hebr"),
    ("Hungarian", "hun_Latn"),
    ("Polish", "pol_Latn"),
    ("Ukrainian", "ukr_Cyrl") ]

/-- A pandas DataFrame as the program uses it: a list of column names and
one cell list per row, aligned with the columns. A missing value (pandas
NaN, filled in for a record lacking a column) is `none`. -/
structure DataFrame where
  columns : List String
  rows : List (List (Option JVal))

/-- Column inference of `pd.DataFrame.from_records` on a list of dicts:
keys are collected in order of first appearance across the records. -/
def addCols (acc : List String) (ks : List String) : List String :=
  ks.foldl (fun a k => if a.contains k then a else a ++ [k]) acc

/-- All columns of a record list, in order of first appearance. -/
def inferColumns (recs : List Dict) : List String :=
  recs.foldl (fun a r => addCols a (r.map Prod.fst)) []

/-- The embedding of `pd.DataFrame.from_records` applied to a list of
records: one row per record, cells looked up by column, `none` where a
record lacks the key. -/
def from_records (recs : List Dict) : DataFrame :=
  let cols := inferColumns recs
  { columns := cols,
    rows := recs.map (fun r => cols.map (fun c => List.lookup c r)) }

/-- The embedding of `df.drop(columns=[c])`: the named column disappears
from the header and from every row. -/
def DataFrame.dropCol (df : DataFrame) (c : String) : DataFrame :=
  { columns := df.columns.filter (fun k => k != c),
    rows := df.rows.map
      (fun row => ((df.columns.zip row).filter (fun p => p.1 != c)).map Prod.snd) }

/-- Interprets a JSON value as a record list for `from_records`; the
program only reaches this with an array of objects. -/
def toRecords : JVal → Option (List Dict)
  | JVal.arr vs => vs.mapM (fun v => match v with | JVal.obj d => some d | _ => none)
  | _ => none

/-- The value a Python call can surface as an exception in the embedded
fragment: a dict `KeyError`, the `IndexError` of `[0]` on an empty list,
and a type error for feeding `from_records` a non-record value. -/
inductive PyErr where
  | keyError : String → PyErr
  | indexError : PyErr
  | typeError : PyErr

/-- What the normalizer hands to the UI: a raw JSON value (the `text` or
`detail` branches) or a table (the `results` branch). -/
inductive DisplayResult where
  | val : JVal → DisplayResult
  | table : DataFrame → DisplayResult

/-- The response normalizer, `request` (source lines 53-60), applied to the
response the service call produced. It returns `response["text"]` when that
key exists, else `response["detail"]` when that key exists, else builds a
DataFrame from `response["results"]` (a `KeyError` when absent) and drops
the `score` column when present. -/
def request (response : Dict) : Except PyErr DisplayResult :=
  match List.lookup "text" response with
  | some v => Except.ok (DisplayResult.val v)
  | none =>
    match List.lookup "detail" response with
    | some v => Except.ok (DisplayResult.val v)
    | none =>
      match List.lookup "results" response with
      | none => Except.error (PyErr.keyError "results")
      | some v =>
        match toRecords v with
        | none => Except.error PyErr.typeError
        | some recs =>
          let results := from_records recs
          Except.ok (DisplayResult.table
            (if results.columns.contains "score" then results.dropCol "score"
             else results))

/-- The embedding of Python `str.lower` for the ASCII ISO 639-3 enum names
the detector produces: each character is lowercased. -/
def lower (s : String) : String := String.mk (s.data.map Char.toLower)

/-- The embedding of Python `s.startswith(p)`: `p` is a leading substring
of `s`. -/
def startswith (s p : String) : Bool := p.data.isPrefixOf s.data

/-- The observable outcome of `translate` before the network layer: either
the function returns a dict without issuing the translation POST, or it
issues the POST with the resolved source and target codes (the service's
reply is then returned as is). -/
inductive TranslateStep where
  | ret : Dict → TranslateStep
  | callService : String → String → TranslateStep

/-- The translation orchestration, `translate` (source lines 41-50). The
supported-language list fetched from the service is the parameter
`all_langs`; `detected` is `langdetector.detect_language_of(text)` rendered
as the ISO 639-3 enum name of the detected language (`None` becomes
`none`); the detector is deterministic, so the source's two calls on lines
43 and 46 agree. On no detection the function returns `{"text": ""}`;
otherwise it lowercases the ISO name, takes the first supported code that
starts with it (`IndexError` when none does), resolves the target by direct
lookup in `LANG_2_FLORES`, and issues the POST. -/
def translate (all_langs : List String) (detected : Option String)
    (tgt_lang : String) : Except PyErr TranslateStep :=
  match detected with
  | none => Except.ok (TranslateStep.ret [("text", JVal.str "")])
  | some isoName =>
    let lang := lower isoName
    match (all_langs.filter (fun l => startswith l lang)).head? with
    | none => Except.error PyErr.indexError
    | some src_lang =>
      match List.lookup tgt_lang LANG_2_FLORES with
      | none => Except.error (PyErr.keyError tgt_lang)
      | some tgt => Except.ok (TranslateStep.callService src_lang tgt)

/-- The upload handler `upload_file` (source lines 63-66): it opens the
uploaded path with UTF-8 encoding and returns the full content. The
filesystem is the explicit parameter `readFile`, mapping a path to the
decoded text of the file there. -/
def upload_file (readFile : String → String) (file : String) : String :=
  readFile file

/-- The pieces of UI state the event bindings write (source lines 69-102):
the input text box, the shared extraction table, the translation output. -/
structure UIState where
  textBox : String
  tableOutput : Option DisplayResult
  translateOutput : Option DisplayResult

/-- The binding `upload_button.upload(upload_file, inputs=upload_button,
outputs=text)` (source line 97): the handler's return value becomes the new
content of the `text` box, replacing whatever was there. -/
def applyUpload (readFile : String → String) (st : UIState)
    (file : String) : UIState :=
  { st with textBox := upload_file readFile file }

/-! Helper lemmas about column inference in `from_records`. -/

/-- Membership in the accumulator survives `addCols`. -/
theorem mem_addCols_left {x : String} {ks : List String} :
    ∀ acc : List String, x ∈ acc → x ∈ addCols acc ks := by
  induction ks with
  | nil => exact fun _ h => h
  | cons k ks ih =>
    intro acc h
    show x ∈ addCols (if acc.contains k then acc else acc ++ [k]) ks
    apply ih
    split
    · exact h
    · exact List.mem_append_left _ h

/-- Every key in the added list ends up in `addCols`. -/
theorem mem_addCols_right {x : String} {ks : List String} :
    ∀ acc : List String, x ∈ ks → x ∈ addCols acc ks := by
  induction ks with
  | nil => intro _ h; cases h
  | cons k ks ih =>
    intro acc h
    show x ∈ addCols (if acc.contains k then acc else acc ++ [k]) ks
    rcases List.mem_cons.mp h with rfl | h
    · apply mem_addCols_left
      by_cases hc : acc.contains x = true
      · rw [if_pos hc]
        simpa using hc
      · rw [if_neg hc]
        exact List.mem_append_right _ (List.mem_singleton.mpr rfl)
    · exact ih _ h

/-- Membership in the accumulator survives the whole column-collecting
fold. -/
theorem mem_foldl_addCols_left {x : String} :
    ∀ (recs : List Dict) (acc : List String), x ∈ acc →
      x ∈ recs.foldl (fun a r => addCols a (r.map Prod.fst)) acc := by
  intro recs
  induction recs with
  | nil => exact fun _ h => h
  | cons r recs ih =>
    intro acc h
    exact ih _ (mem_addCols_left _ h)

/-- A key of any record in the list is collected by the fold, whatever the
starting accumulator. -/
theorem mem_foldl_addCols {x : String} :
    ∀ (recs : List Dict) (acc : List String),
      (∃ r ∈ recs, x ∈ r.map Prod.fst) →
      x ∈ recs.foldl (fun a r => addCols a (r.map Prod.fst)) acc := by
  intro recs
  induction recs with
  | nil =>
    intro acc h
    rcases h with ⟨r, hr, -⟩
    cases hr
  | cons r0 recs ih =>
    intro acc h
    rcases h with ⟨r, hr, hx⟩
    rcases List.mem_cons.mp hr with rfl | hr
    · show x ∈ recs.foldl (fun a r => addCols a (r.map Prod.fst))
        (addCols acc (r.map Prod.fst))
      exact mem_foldl_addCols_left recs _ (mem_addCols_right _ hx)
    · exact ih _ ⟨r, hr, hx⟩

/-- A key of any record appears among the inferred columns. -/
theorem mem_inferColumns {x : String} {recs : List Dict}
    (h : ∃ r ∈ recs, x ∈ r.map Prod.fst) : x ∈ inferColumns recs :=
  mem_foldl_addCols recs [] h

/-- A successful dict lookup means the key is among the dict's keys. -/
theorem lookup_isSome_mem_keys {k : String} {r : Dict}
    (h : (List.lookup k r).isSome) : k ∈ r.map Prod.fst := by
  induction r with
  | nil => simp [List.lookup] at h
  | cons p rest ih =>
    obtain ⟨a, b⟩ := p
    by_cases he : k = a
    · simp [he]
    · have hba : (k == a) = false := by simpa using he
      simp only [List.lookup, hba] at h
      simp only [List.map_cons, List.mem_cons]
      exact Or.inr (ih h)

/-! Theorems settling the claims. -/

/-- C1: for every response dictionary containing a `text` key, the
normalizer `request` returns the value of that key unchanged as a string,
regardless of any other keys (`detail`, `results`) also present in the
response. -/
theorem request_text_verbatim (response : Dict) (s : String)
    (h : List.lookup "text" response = some (JVal.str s)) :
    request response = Except.ok (DisplayResult.val (JVal.str s)) := by
  unfold request
  rw [h]

/-- Witness for C1: a concrete response carrying all three keys still
surfaces the `text` value. -/
theorem request_text_verbatim_witness :
    request [("text", JVal.str "hello"), ("detail", JVal.str "err"),
             ("results", JVal.arr [])]
      = Except.ok (DisplayResult.val (JVal.str "hello")) :=
  request_text_verbatim _ "hello" rfl

/-- C5: for every response dictionary containing a `detail` key and no
`text` key, `request` returns the detail value as a string, identical in
shape to a successful translation result carrying the same string. -/
theorem request_detail_as_text (response : Dict) (s : String)
    (ht : List.lookup "text" response = none)
    (hd : List.lookup "detail" response = some (JVal.str s)) :
    request response = Except.ok (DisplayResult.val (JVal.str s)) ∧
    request response = request [("text", JVal.str s)] := by
  have h1 : request response = Except.ok (DisplayResult.val (JVal.str s)) := by
    unfold request
    rw [ht, hd]
  refine ⟨h1, ?_⟩
  rw [h1]
  rfl

/-- Witness for C5: a concrete error response surfaces its detail string. -/
theorem request_detail_as_text_witness :
    request [("detail", JVal.str "Internal Server Error")]
      = Except.ok (DisplayResult.val (JVal.str "Internal Server Error")) ∧
    request [("detail", JVal.str "Internal Server Error")]
      = request [("text", JVal.str "Internal Server Error")] :=
  request_detail_as_text _ "Internal Server Error" rfl rfl

/-- C6: the normalizer is deterministic and stateless: its output is a
function of the response content alone (the three keys it reads), so two
applications to the same response yield identical output. -/
theorem request_deterministic (r1 r2 : Dict)
    (ht : List.lookup "text" r1 = List.lookup "text" r2)
    (hd : List.lookup "detail" r1 = List.lookup "detail" r2)
    (hr : List.lookup "results" r1 = List.lookup "results" r2) :
    request r1 = request r2 := by
  unfold request
  rw [ht, hd, hr]

/-- Witness for C6: two applications to the same concrete response agree. -/
theorem request_deterministic_witness :
    request [("detail", JVal.str "oops")]
      = request [("detail", JVal.str "oops")] :=
  request_deterministic _ _ rfl rfl rfl

/-- C10: for every response dictionary containing none of the keys `text`,
`detail`, `results`, the normalizer raises a `KeyError` on the `results`
lookup and never returns a value. -/
theorem request_missing_keys_error (response : Dict)
    (ht : List.lookup "text" response = none)
    (hd : List.lookup "detail" response = none)
    (hr : List.lookup "results" response = none) :
    request response = Except.error (PyErr.keyError "results") := by
  unfold request
  rw [ht, hd, hr]

/-- Witness for C10: the empty response raises the `KeyError`. -/
theorem request_missing_keys_error_witness :
    request [] = Except.error (PyErr.keyError "results") :=
  request_missing_keys_error [] rfl rfl rfl

/-- C2: for every response dictionary carrying a record sequence under
`results` and neither `text` nor `detail`, `request` returns a table with
exactly one row per record; and when any record carries a `score` key, the
returned table has no `score` column. -/
theorem request_results_table (response : Dict) (v : JVal) (recs : List Dict)
    (ht : List.lookup "text" response = none)
    (hd : List.lookup "detail" response = none)
    (hr : List.lookup "results" response = some v)
    (hv : toRecords v = some recs) :
    ∃ df, request response = Except.ok (DisplayResult.table df) ∧
      df.rows.length = recs.length ∧
      ((∃ r ∈ recs, (List.lookup "score" r).isSome) → "score" ∉ df.columns) := by
  unfold request
  simp only [ht, hd, hr, hv]
  by_cases hs : (from_records recs).columns.contains "score" = true
  · refine ⟨(from_records recs).dropCol "score", ?_, ?_, ?_⟩
    · rw [if_pos hs]
    · simp [DataFrame.dropCol, from_records]
    · intro _
      simp [DataFrame.dropCol, List.mem_filter]
  · refine ⟨from_records recs, ?_, ?_, ?_⟩
    · rw [if_neg hs]
    · simp [from_records]
    · rintro ⟨r, hrm, hsc⟩
      have hmem : "score" ∈ (from_records recs).columns :=
        mem_inferColumns ⟨r, hrm, lookup_isSome_mem_keys hsc⟩
      have hc : (from_records recs).columns.contains "score" = true := by
        simpa using hmem
      exact absurd hc hs

/-- Witness for C2: the spec's example record list normalizes to a one-row
table without a `score` column. -/
theorem request_results_table_witness :
    ∃ df,
      request [("results", JVal.arr
          [JVal.obj [("term", JVal.str "greeting"), ("score", JVal.num "0.9")]])]
        = Except.ok (DisplayResult.table df) ∧
      df.rows.length
        = [[("term", JVal.str "greeting"), ("score", JVal.num "0.9")]].length ∧
      ((∃ r ∈ ([[("term", JVal.str "greeting"), ("score", JVal.num "0.9")]] :
            List Dict), (List.lookup "score" r).isSome) →
        "score" ∉ df.columns) :=
  request_results_table _ _ _ rfl rfl rfl rfl

/-- C3: when detection succeeds, `translate` selects as source code the
first element, in list order, of the supported-language list whose code
starts with the detected ISO 639-3 code (the detector's enum name,
lowercased); the chosen source does start with that code, and in
particular target "German" resolves to "deu_Latn". -/
theorem translate_first_supported (all_langs : List String)
    (iso tgtName src code : String)
    (hsrc : (all_langs.filter (fun l => startswith l (lower iso))).head?
      = some src)
    (htgt : List.lookup tgtName LANG_2_FLORES = some code) :
    translate all_langs (some iso) tgtName
      = Except.ok (TranslateStep.callService src code) ∧
    startswith src (lower iso) = true ∧
    (tgtName = "German" → code = "deu_Latn") := by
  refine ⟨?_, ?_, ?_⟩
  · simp only [translate]
    rw [hsrc, htgt]
  · have hmem : src ∈ all_langs.filter (fun l => startswith l (lower iso)) := by
      rcases hfe : all_langs.filter (fun l => startswith l (lower iso))
        with _ | ⟨a, tl⟩
      · rw [hfe] at hsrc
        cases hsrc
      · rw [hfe] at hsrc
        simp only [List.head?_cons, Option.some.injEq] at hsrc
        rw [← hsrc]
        exact List.mem_cons_self a tl
    exact (List.mem_filter.mp hmem).2
  · intro hG
    subst hG
    have hGer : List.lookup "German" LANG_2_FLORES = some "deu_Latn" := rfl
    rw [hGer] at htgt
    exact (Option.some.inj htgt).symm

/-- Witness for C3: an English detection with target "German" resolves to
the first `eng`-initial supported code and "deu_Latn". -/
theorem translate_first_supported_witness :
    translate ["deu_Latn", "eng_Latn", "eng_Arab"] (some "ENG") "German"
      = Except.ok (TranslateStep.callService "eng_Latn" "deu_Latn") ∧
    startswith "eng_Latn" (lower "ENG") = true ∧
    ("German" = "German" → "deu_Latn" = "deu_Latn") :=
  translate_first_supported _ "ENG" "German" "eng_Latn" "deu_Latn" rfl rfl

/-- C4: when language detection yields no language, `translate` returns
exactly the dict with an empty `text` and does not issue the POST to the
translation endpoint (the outcome is a `ret`, not a `callService`). -/
theorem translate_undetected_empty (all_langs : List String)
    (tgtName : String) :
    translate all_langs none tgtName
      = Except.ok (TranslateStep.ret [("text", JVal.str "")]) := rfl

/-- C9: when detection succeeds but the lowercased ISO 639-3 code starts no
code of the supported-language list, `translate` raises the index error of
`[0]` applied to the empty filtered list instead of returning a value. -/
theorem translate_unmatched_index_error (all_langs : List String)
    (iso tgtName : String)
    (h : ∀ l ∈ all_langs, startswith l (lower iso) = false) :
    translate all_langs (some iso) tgtName = Except.error PyErr.indexError := by
  have hf : all_langs.filter (fun l => startswith l (lower iso)) = [] := by
    rw [List.filter_eq_nil_iff]
    intro a ha
    simp [h a ha]
  simp only [translate]
  rw [hf]
  rfl

/-- Witness for C9: English detection over a list with no `eng`-initial
code raises the index error. -/
theorem translate_unmatched_index_error_witness :
    translate ["deu_Latn", "ces_Latn"] (some "ENG") "German"
      = Except.error PyErr.indexError :=
  translate_unmatched_index_error _ "ENG" "German" (by decide)

/-- C8: the target-language table is a fixed nine-entry table containing
"English" mapped to "eng_Latn", and whenever `translate` issues the POST,
the target code it sends is exactly the direct lookup of the selected name
in this table. The table is a closed Lean term, so no operation mutates
it. -/
theorem lang_table_fixed_nine :
    LANG_2_FLORES.length = 9 ∧
    List.lookup "English" LANG_2_FLORES = some "eng_Latn" ∧
    (∀ (all_langs : List String) (iso tgtName src code : String),
      translate all_langs (some iso) tgtName
        = Except.ok (TranslateStep.callService src code) →
      List.lookup tgtName LANG_2_FLORES = some code) := by
  refine ⟨rfl, rfl, ?_⟩
  intro all_langs iso tgtName src code h
  simp only [translate] at h
  rcases hh : (all_langs.filter (fun l => startswith l (lower iso))).head?
    with _ | s
  · rw [hh] at h
    cases h
  · rw [hh] at h
    rcases hl : List.lookup tgtName LANG_2_FLORES with _ | c
    · rw [hl] at h
      cases h
    · rw [hl] at h
      simp only [Except.ok.injEq, TranslateStep.callService.injEq] at h
      rw [h.2]

/-- Witness for C8: applied at a run that issues the POST for target
"German". -/
theorem lang_table_fixed_nine_witness :
    List.lookup "German" LANG_2_FLORES = some "deu_Latn" :=
  lang_table_fixed_nine.2.2 ["eng_Latn"] "ENG" "German" "eng_Latn" "deu_Latn"
    rfl

/-- C7: an upload returns the file's full decoded content, and the upload
binding makes that content the new text box value, overwriting the prior
one, whatever it was; a file containing "Bonjour" makes the text box
exactly "Bonjour". -/
theorem upload_overwrites_text (readFile : String → String) (st : UIState)
    (file : String) :
    (applyUpload readFile st file).textBox = readFile file ∧
    (readFile file = "Bonjour" →
      (applyUpload readFile st file).textBox = "Bonjour") := by
  refine ⟨rfl, ?_⟩
  intro h
  simp [applyUpload, upload_file, h]

/-- Witness for C7: uploading over a non-empty text box leaves exactly the
file content. -/
theorem upload_overwrites_text_witness :
    (applyUpload (fun _ => "Bonjour") ⟨"old text", none, none⟩
        "story.txt").textBox = "Bonjour" :=
  (upload_overwrites_text (fun _ => "Bonjour") ⟨"old text", none, none⟩
    "story.txt").2 rfl

end MemoriseDemo
